import Mathlib

/-!
Shallow embedding of `custom_components/electrohold_tariffs/sensor.py`:
the tariff extractor (`_parse_main_tariffs`, `_extract_numeric_value`),
the VAT price calculation in `ElectricityTariffSensor.update`, and the
season/band classification, cache fallback and `data_source` reporting of
`ElectroholdCurrentPriceSensor`.  Python floats are modelled as exact
rationals; Python `round(x, 5)` (round half to even) is `pyRound5`.
-/

namespace ElectroholdTariffs

/-- Python `round` to an integer: round half to even (banker's rounding). -/
def roundHalfEven (q : ℚ) : ℤ :=
  let n : ℤ := ⌊q⌋
  let r : ℚ := q - n
  if r < 1/2 then n
  else if 1/2 < r then n + 1
  else if n % 2 = 0 then n else n + 1

/-- Python `round(x, 5)`: round to 5 decimal places, half to even. -/
def pyRound5 (q : ℚ) : ℚ := (roundHalfEven (q * 100000) : ℚ) / 100000

/-- The `text.replace(',', '.')` normalization of decimal separators. -/
def commaToDot (c : Char) : Char := if c = ',' then '.' else c

/-- Take the maximal leading run of ASCII digits, returning it and the rest. -/
def takeDigits : List Char → List Char × List Char
  | [] => ([], [])
  | c :: cs =>
    if c.isDigit then
      let p := takeDigits cs
      (c :: p.1, p.2)
    else ([], c :: cs)

/-- Leftmost match of the pattern `\d+(?:\.\d+)?`: the integer-part digits and
the (possibly empty) fractional-part digits of the first number in the text. -/
def findNumber : List Char → Option (List Char × List Char)
  | [] => none
  | c :: cs =>
    if c.isDigit then
      let p := takeDigits (c :: cs)
      match p.2 with
      | '.' :: rest =>
        let f := takeDigits rest
        if f.1.isEmpty then some (p.1, []) else some (p.1, f.1)
      | _ => some (p.1, [])
    else findNumber cs

/-- Decimal value of a digit string. -/
def digitsToNat (ds : List Char) : ℕ :=
  ds.foldl (fun a c => 10 * a + (c.toNat - 48)) 0

/-- Model of `ElectricityTariffSensor._extract_numeric_value`: normalize the
decimal separator, then parse the first `digits[.digits]` group as a number;
`none` when no digit occurs in the text. -/
def extractNumericValue (s : String) : Option ℚ :=
  match findNumber (s.data.map commaToDot) with
  | none => none
  | some (ip, fp) => some ((digitsToNat ip : ℚ) + (digitsToNat fp : ℚ) / 10 ^ fp.length)

/-- A table row: the stripped text of its `td` cells. -/
structure Row where
  cells : List String
deriving DecidableEq

/-- A raw document, reduced to the table rows the parser scans. -/
abbrev RawDocument := List Row

/-- Cell access `cells[i]` guarded as in the source (`""` when out of range). -/
def getCell (r : Row) (i : ℕ) : String := r.cells.getD i ""

/-- Whether the first list occurs at the head of the second. -/
def matchesAt : List Char → List Char → Bool
  | [], _ => true
  | _ :: _, [] => false
  | n :: ns, h :: hs => n = h && matchesAt ns hs

/-- Python's `needle in haystack` substring test. -/
def containsSub (needle : List Char) : List Char → Bool
  | [] => matchesAt needle []
  | h :: hs => matchesAt needle (h :: hs) || containsSub needle hs

/-- Whether a marker word occurs in a cell's text. -/
def cellHasMarker (marker cell : String) : Bool := containsSub marker.data cell.data

/-- The components dictionary built by `_parse_main_tariffs`.  The outer
`Option` is key presence in the Python dict; the inner `Option` is the result
of `_extract_numeric_value` stored under the key (which may be `None`). -/
structure TariffComponents where
  day_bgn : Option (Option ℚ)
  day_eur : Option (Option ℚ)
  night_bgn : Option (Option ℚ)
  night_eur : Option (Option ℚ)
deriving DecidableEq

/-- The fresh empty dict `tariffs = {}` at the start of each parse. -/
def emptyComponents : TariffComponents := ⟨none, none, none, none⟩

/-- One iteration of the row loop in `_parse_main_tariffs`: rows with at least
6 cells whose `cells[1]` text contains the day marker fill `day_bgn`/`day_eur`
from `cells[4]`/`cells[5]`; the night marker fills the night keys likewise. -/
def processRow (t : TariffComponents) (r : Row) : TariffComponents :=
  if r.cells.length ≥ 6 then
    let first := getCell r 1
    if cellHasMarker "Дневна" first then
      { t with day_bgn := some (extractNumericValue (getCell r 4)),
               day_eur := some (extractNumericValue (getCell r 5)) }
    else if cellHasMarker "Нощна" first then
      { t with night_bgn := some (extractNumericValue (getCell r 4)),
               night_eur := some (extractNumericValue (getCell r 5)) }
    else t
  else t

/-- Model of `ElectricityTariffSensor._parse_main_tariffs`: fold the row loop
over the document, starting from a fresh empty dict. -/
def parseMainTariffs (doc : RawDocument) : TariffComponents :=
  doc.foldl processRow emptyComponents

/-- Python's `not main_tariffs`: the dict holds no key at all. -/
def componentsEmpty (t : TariffComponents) : Bool :=
  t.day_bgn.isNone && t.day_eur.isNone && t.night_bgn.isNone && t.night_eur.isNone

/-- A row the parser reacts to: at least 6 cells and a band marker in
`cells[1]`. -/
def rowMatches (r : Row) : Bool :=
  r.cells.length ≥ 6 &&
    (cellHasMarker "Дневна" (getCell r 1) || cellHasMarker "Нощна" (getCell r 1))

/-- The four base-tariff sensor flavours of `ElectricityTariffSensor`. -/
inductive SensorType
  | dayTariff
  | nightTariff
  | dayTariffEuro
  | nightTariffEuro
deriving DecidableEq

/-- The components key each sensor flavour reads in `update`. -/
def selectComponent : SensorType → TariffComponents → Option (Option ℚ)
  | .dayTariff, t => t.day_bgn
  | .nightTariff, t => t.night_bgn
  | .dayTariffEuro, t => t.day_eur
  | .nightTariffEuro, t => t.night_eur

/-- Python's `main_tariffs.get(key, 0)`: an absent key yields `0`; a present
key yields its stored value, which may itself be `None`. -/
def getOrZero : Option (Option ℚ) → Option ℚ
  | none => some 0
  | some v => v

/-- The VAT multiplier `1.2` (`VAT_RATE` in `const.py`). -/
def VAT_RATE : ℚ := 6/5

/-- Model of `ElectricityTariffSensor.update` for one tick.  `fetch = none` is
a fetch/parsing exception: the handler keeps the previous state.  On a fetched
document: an empty components dict sets the state to `None`; otherwise the
selected component is zero-filled when its key is absent and priced with
`round(value * 1.2, 5)`; a present key holding `None` makes `None * 1.2`
raise, which the handler turns into keeping the previous state. -/
def baseUpdate (st : SensorType) (prev : Option ℚ) (fetch : Option RawDocument) : Option ℚ :=
  match fetch with
  | none => prev
  | some doc =>
    let t := parseMainTariffs doc
    if componentsEmpty t then none
    else
      match getOrZero (selectComponent st t) with
      | some v => some (pyRound5 (v * VAT_RATE))
      | none => prev

/-- Season rule in `ElectroholdCurrentPriceSensor.update`:
`is_summer = 4 <= month <= 10`. -/
def isSummer (month : ℕ) : Bool := 4 ≤ month && month ≤ 10

/-- Band rule: summer night is `hour >= 23 or hour < 7`, winter night is
`hour >= 22 or hour < 6`. -/
def isNight (hour month : ℕ) : Bool :=
  if isSummer month then hour ≥ 23 || hour < 7 else hour ≥ 22 || hour < 6

/-- Season attribute string. -/
def seasonName (summer : Bool) : String := if summer then "Summer" else "Winter"

/-- The `tariff_type` label set when a fresh value is read. -/
def bandLabel (night summer : Bool) : String :=
  (if night then "Night (" else "Day (") ++ seasonName summer ++ ")"

/-- Mutable fields of `ElectroholdCurrentPriceSensor` touched by `update`. -/
structure CurrentSensorState where
  state : Option ℚ
  lastValidState : Option ℚ
  initializationComplete : Bool
  tariffType : Option String
  season : Option String
  dayTariff : Option ℚ
  nightTariff : Option ℚ
deriving DecidableEq

/-- The constructor's field initialization (before its initial `update`). -/
def initialCur : CurrentSensorState :=
  { state := none, lastValidState := none, initializationComplete := false,
    tariffType := none, season := none, dayTariff := none, nightTariff := none }

/-- Model of `ElectroholdCurrentPriceSensor.update`.  `dayB`/`nightB` are the
published states of the two base sensors (`none` for missing, `unknown` or
`unavailable`).  The active band's value, when present, is served fresh and
recorded in `_last_valid_state` with `_initialization_complete = True` and a
fresh `_tariff_type` label; otherwise the sensor falls back to
`_last_valid_state` when initialized, else goes to `None`; in both fallback
paths `_tariff_type` is left unchanged. -/
def currentUpdate (cur : CurrentSensorState) (hour month : ℕ)
    (dayB nightB : Option ℚ) : CurrentSensorState :=
  let summer := isSummer month
  let night := isNight hour month
  let active := if night then nightB else dayB
  match active with
  | some v =>
    { state := some v, lastValidState := some v, initializationComplete := true,
      tariffType := some (bandLabel night summer),
      season := some (seasonName summer), dayTariff := dayB, nightTariff := nightB }
  | none =>
    match cur.lastValidState, cur.initializationComplete with
    | some w, true =>
      { cur with state := some w, season := some (seasonName summer),
                 dayTariff := dayB, nightTariff := nightB }
    | _, _ =>
      { cur with state := none, season := some (seasonName summer),
                 dayTariff := dayB, nightTariff := nightB }

/-- The `data_source` attribute values. -/
inductive DataSource
  | fresh
  | cached
  | unavailable
deriving DecidableEq

/-- Model of `_are_base_sensors_available`: both base sensors publish a valid
numeric state. -/
def bothBasesAvailable (dayB nightB : Option ℚ) : Bool :=
  dayB.isSome && nightB.isSome

/-- The `data_source` computation in `extra_state_attributes`: `cached` when
the state equals `_last_valid_state` (Python `==`, so `None == None` counts)
and the base sensors are not both available; else `unavailable` when the state
is `None`; else `fresh`. -/
def dataSourceOf (s : CurrentSensorState) (dayB nightB : Option ℚ) : DataSource :=
  if s.state = s.lastValidState ∧ bothBasesAvailable dayB nightB = false then .cached
  else if s.state = none then .unavailable
  else .fresh

/-- Combined state of one currency's base sensors and current-price sensor. -/
structure SystemState where
  dayBase : Option ℚ
  nightBase : Option ℚ
  cur : CurrentSensorState
deriving DecidableEq

/-- One scheduled tick: both base sensors run `update` on the fetched
document, then the current-price sensor reads their published states at local
time `(hour, month)`. -/
def tick (s : SystemState) (fetch : Option RawDocument) (hour month : ℕ) : SystemState :=
  let d := baseUpdate .dayTariff s.dayBase fetch
  let n := baseUpdate .nightTariff s.nightBase fetch
  { dayBase := d, nightBase := n, cur := currentUpdate s.cur hour month d n }

/-- All sensors empty at process start. -/
def initialSystem : SystemState :=
  { dayBase := none, nightBase := none, cur := initialCur }

/-- The default timezone (`DEFAULT_TIMEZONE` in the source). -/
def DEFAULT_TIMEZONE : String := "Europe/Sofia"

/-- Timezone selection in `ElectroholdCurrentPriceSensor.__init__`:
`pytz.timezone` is modelled by the predicate `known`; an unrecognized name
raises `UnknownTimeZoneError` and the handler substitutes `Europe/Sofia`. -/
def selectTimezone (known : String → Bool) (tz : String) : String :=
  if known tz then tz else DEFAULT_TIMEZONE

/-! Concrete documents used as test vectors and counterexamples. -/

/-- The end-to-end scenario document: a day row and a night row, markers in
`cells[1]`, BGN final prices in `cells[4]`. -/
def docScenario : RawDocument :=
  [⟨["", "Дневна", "", "", "0,12478 €", ""]⟩,
   ⟨["", "Нощна", "", "", "0,07381 €", ""]⟩]

/-- A document whose extraction yields only the night component. -/
def docNightOnly : RawDocument :=
  [⟨["", "Нощна", "", "", "0,07381 €", ""]⟩]

/-- A night row whose only numeric value lies below the claimed plausibility
window (0.04 ≤ 0.05). -/
def docLowNight : RawDocument :=
  [⟨["", "Нощна", "", "", "0,04 лв.", ""]⟩]

theorem extract_day_cell : extractNumericValue "0,12478 €" = some (12478/100000) := by
  have h : findNumber ("0,12478 €".data.map commaToDot)
      = some (['0'], ['1','2','4','7','8']) := by decide
  simp only [extractNumericValue, h]
  norm_num [show digitsToNat ['0'] = 0 from by decide,
    show digitsToNat ['1','2','4','7','8'] = 12478 from by decide]

theorem extract_night_cell : extractNumericValue "0,07381 €" = some (7381/100000) := by
  have h : findNumber ("0,07381 €".data.map commaToDot)
      = some (['0'], ['0','7','3','8','1']) := by decide
  simp only [extractNumericValue, h]
  norm_num [show digitsToNat ['0'] = 0 from by decide,
    show digitsToNat ['0','7','3','8','1'] = 7381 from by decide]

theorem extract_low_cell : extractNumericValue "0,04 лв." = some (4/100) := by
  have h : findNumber ("0,04 лв.".data.map commaToDot)
      = some (['0'], ['0','4']) := by decide
  simp only [extractNumericValue, h]
  norm_num [show digitsToNat ['0'] = 0 from by decide,
    show digitsToNat ['0','4'] = 4 from by decide]

theorem extract_blank_cell : extractNumericValue "" = none := by
  have h : findNumber ("".data.map commaToDot) = none := by decide
  simp only [extractNumericValue, h]

theorem parse_docScenario : parseMainTariffs docScenario =
    { day_bgn := some (some (12478/100000)), day_eur := some none,
      night_bgn := some (some (7381/100000)), night_eur := some none } := by
  have c1 : cellHasMarker "Дневна"
      (getCell ⟨["", "Дневна", "", "", "0,12478 €", ""]⟩ 1) = true := by decide
  have c2 : cellHasMarker "Дневна"
      (getCell ⟨["", "Нощна", "", "", "0,07381 €", ""]⟩ 1) = false := by decide
  have c3 : cellHasMarker "Нощна"
      (getCell ⟨["", "Нощна", "", "", "0,07381 €", ""]⟩ 1) = true := by decide
  simp only [parseMainTariffs, docScenario, List.foldl, processRow, c1, c2, c3]
  simp only [show getCell ⟨["", "Дневна", "", "", "0,12478 €", ""]⟩ 4 = "0,12478 €" from rfl,
    show getCell ⟨["", "Дневна", "", "", "0,12478 €", ""]⟩ 5 = "" from rfl,
    show getCell ⟨["", "Нощна", "", "", "0,07381 €", ""]⟩ 4 = "0,07381 €" from rfl,
    show getCell ⟨["", "Нощна", "", "", "0,07381 €", ""]⟩ 5 = "" from rfl,
    extract_day_cell, extract_night_cell, extract_blank_cell]
  simp [emptyComponents]

theorem parse_docNightOnly : parseMainTariffs docNightOnly =
    { day_bgn := none, day_eur := none,
      night_bgn := some (some (7381/100000)), night_eur := some none } := by
  have c2 : cellHasMarker "Дневна"
      (getCell ⟨["", "Нощна", "", "", "0,07381 €", ""]⟩ 1) = false := by decide
  have c3 : cellHasMarker "Нощна"
      (getCell ⟨["", "Нощна", "", "", "0,07381 €", ""]⟩ 1) = true := by decide
  simp only [parseMainTariffs, docNightOnly, List.foldl, processRow, c2, c3]
  simp only [show getCell ⟨["", "Нощна", "", "", "0,07381 €", ""]⟩ 4 = "0,07381 €" from rfl,
    show getCell ⟨["", "Нощна", "", "", "0,07381 €", ""]⟩ 5 = "" from rfl,
    extract_night_cell, extract_blank_cell]
  simp [emptyComponents]

theorem parse_docLowNight : parseMainTariffs docLowNight =
    { day_bgn := none, day_eur := none,
      night_bgn := some (some (4/100)), night_eur := some none } := by
  have c2 : cellHasMarker "Дневна"
      (getCell ⟨["", "Нощна", "", "", "0,04 лв.", ""]⟩ 1) = false := by decide
  have c3 : cellHasMarker "Нощна"
      (getCell ⟨["", "Нощна", "", "", "0,04 лв.", ""]⟩ 1) = true := by decide
  simp only [parseMainTariffs, docLowNight, List.foldl, processRow, c2, c3]
  simp only [show getCell ⟨["", "Нощна", "", "", "0,04 лв.", ""]⟩ 4 = "0,04 лв." from rfl,
    show getCell ⟨["", "Нощна", "", "", "0,04 лв.", ""]⟩ 5 = "" from rfl,
    extract_low_cell, extract_blank_cell]
  simp [emptyComponents]

theorem base_day_scenario (prev : Option ℚ) :
    baseUpdate .dayTariff prev (some docScenario) = some (14974/100000) := by
  simp only [baseUpdate, parse_docScenario]
  norm_num [componentsEmpty, selectComponent, getOrZero, pyRound5, roundHalfEven, VAT_RATE]

theorem base_night_scenario (prev : Option ℚ) :
    baseUpdate .nightTariff prev (some docScenario) = some (8857/100000) := by
  simp only [baseUpdate, parse_docScenario]
  norm_num [componentsEmpty, selectComponent, getOrZero, pyRound5, roundHalfEven, VAT_RATE]

theorem base_day_nightOnly (prev : Option ℚ) :
    baseUpdate .dayTariff prev (some docNightOnly) = some 0 := by
  simp only [baseUpdate, parse_docNightOnly]
  norm_num [componentsEmpty, selectComponent, getOrZero, pyRound5, roundHalfEven, VAT_RATE]

theorem base_night_lowNight (prev : Option ℚ) :
    baseUpdate .nightTariff prev (some docLowNight) = some (6/125) := by
  simp only [baseUpdate, parse_docLowNight]
  norm_num [componentsEmpty, selectComponent, getOrZero, pyRound5, roundHalfEven, VAT_RATE]

theorem base_nil_doc (st : SensorType) (prev : Option ℚ) :
    baseUpdate st prev (some []) = none := by
  simp [baseUpdate, parseMainTariffs, emptyComponents, componentsEmpty]

theorem processRow_no_match (t : TariffComponents) (r : Row)
    (h : rowMatches r = false) : processRow t r = t := by
  unfold rowMatches at h
  unfold processRow
  by_cases hl : r.cells.length ≥ 6
  · simp only [hl, if_true]
    simp only [decide_eq_true hl, Bool.true_and, Bool.or_eq_false_iff] at h
    simp [h.1, h.2]
  · simp [hl]

/-- C5: season is summer iff the local month lies in April..October inclusive;
the band is night in summer iff the hour is at least 23 or below 7, in winter
iff the hour is at least 22 or below 6; in particular hour 22 in November is
night, hour 21 in November is day, hour 23 in June is night, hour 22 in June
is day. -/
theorem seasonBandClassification :
    (∀ m : ℕ, isSummer m = true ↔ 4 ≤ m ∧ m ≤ 10) ∧
    (∀ h m : ℕ, isNight h m = true ↔
      ((4 ≤ m ∧ m ≤ 10) ∧ (23 ≤ h ∨ h < 7)) ∨
      (¬(4 ≤ m ∧ m ≤ 10) ∧ (22 ≤ h ∨ h < 6))) ∧
    isNight 22 11 = true ∧ isNight 21 11 = false ∧
    isNight 23 6 = true ∧ isNight 22 6 = false := by
  have hsum : ∀ m : ℕ, isSummer m = true ↔ 4 ≤ m ∧ m ≤ 10 := by
    intro m; simp [isSummer]
  refine ⟨hsum, ?_, by decide, by decide, by decide, by decide⟩
  intro h m
  simp only [← hsum]
  cases hb : isSummer m <;> simp [isNight, hb]

/-- C8: an unrecognized timezone name is replaced by the default
`Europe/Sofia` during construction, so classification never starts from an
unrecognized zone. -/
theorem timezoneFallback (known : String → Bool) (tz : String)
    (hunknown : known tz = false) (hdefault : known DEFAULT_TIMEZONE = true) :
    selectTimezone known tz = DEFAULT_TIMEZONE ∧
    known (selectTimezone known tz) = true := by
  simp [selectTimezone, hunknown, hdefault]

theorem timezoneFallbackWitness :
    (fun s : String => s == "Europe/Sofia") "Mars/Olympus" = false ∧
    (fun s : String => s == "Europe/Sofia") DEFAULT_TIMEZONE = true ∧
    (selectTimezone (fun s : String => s == "Europe/Sofia") "Mars/Olympus" = DEFAULT_TIMEZONE ∧
     (fun s : String => s == "Europe/Sofia")
       (selectTimezone (fun s : String => s == "Europe/Sofia") "Mars/Olympus") = true) :=
  ⟨by decide, by decide,
   timezoneFallback (fun s : String => s == "Europe/Sofia") "Mars/Olympus"
     (by decide) (by decide)⟩

/-- C9: the extraction-plus-calculation pipeline is a deterministic function
of the document alone, and running the base-sensor update twice on the same
fetched document yields the same state as running it once. -/
theorem pipelineDeterministicIdempotent :
    (∀ (doc : RawDocument) (st : SensorType) (prev : Option ℚ),
      baseUpdate st prev (some doc) = baseUpdate st prev (some doc)) ∧
    (∀ (st : SensorType) (prev : Option ℚ) (fetch : Option RawDocument),
      baseUpdate st (baseUpdate st prev fetch) fetch = baseUpdate st prev fetch) := by
  refine ⟨fun _ _ _ => rfl, ?_⟩
  intro st prev fetch
  cases fetch with
  | none => rfl
  | some doc =>
    cases he : componentsEmpty (parseMainTariffs doc) with
    | true => simp [baseUpdate, he]
    | false =>
      cases hg : getOrZero (selectComponent st (parseMainTariffs doc)) with
      | some v => simp [baseUpdate, he, hg]
      | none => simp [baseUpdate, he, hg]

theorem foldl_processRow_no_match (doc : RawDocument) :
    ∀ (t : TariffComponents), (∀ r ∈ doc, rowMatches r = false) →
      doc.foldl processRow t = t := by
  induction doc with
  | nil => intro t _; rfl
  | cons r rest ih =>
    intro t hall
    simp only [List.foldl]
    rw [processRow_no_match t r (hall r (by simp))]
    exact ih t (fun r' hr' => hall r' (by simp [hr']))

/-- C7: the extractor is a total function of the document alone: a document
none of whose rows carry a band marker in a sufficiently long row (malformed
input included) yields the empty components dict, never a merge with any
previous result. -/
theorem extractorTotalEmptyOnNoMatch (doc : RawDocument)
    (h : ∀ r ∈ doc, rowMatches r = false) :
    parseMainTariffs doc = emptyComponents :=
  foldl_processRow_no_match doc emptyComponents h

theorem extractorTotalWitness :
    (∀ r ∈ ([⟨["<garbage"]⟩, ⟨[]⟩, ⟨["a", "b", "c", "d", "e", "f"]⟩] : RawDocument),
      rowMatches r = false) ∧
    parseMainTariffs [⟨["<garbage"]⟩, ⟨[]⟩, ⟨["a", "b", "c", "d", "e", "f"]⟩] = emptyComponents :=
  ⟨by decide,
   extractorTotalEmptyOnNoMatch [⟨["<garbage"]⟩, ⟨[]⟩, ⟨["a", "b", "c", "d", "e", "f"]⟩]
     (by decide)⟩

/-- C10: the resolver keeps one last-good scalar and one initialized flag; at
any tick whose active band base value is unavailable, once initialized, it
serves that single scalar whatever band wrote it, and leaves the
`tariff_type` label of the earlier fresh tick unchanged. -/
theorem singleCacheAcrossBands (cur : CurrentSensorState) (hour month : ℕ)
    (dayB nightB : Option ℚ) (v : ℚ)
    (hlv : cur.lastValidState = some v)
    (hinit : cur.initializationComplete = true)
    (hact : (if isNight hour month then nightB else dayB) = none) :
    (currentUpdate cur hour month dayB nightB).state = some v ∧
    (currentUpdate cur hour month dayB nightB).tariffType = cur.tariffType ∧
    (currentUpdate cur hour month dayB nightB).lastValidState = some v := by
  cases hn : isNight hour month <;> simp [hn] at hact <;>
    simp [currentUpdate, hn, hact, hlv, hinit]

theorem singleCacheAcrossBandsWitness :
    ((⟨some (8857/100000), some (8857/100000), true, some "Night (Winter)",
       some "Winter", none, some (8857/100000)⟩ : CurrentSensorState).lastValidState
        = some (8857/100000)) ∧
    ((currentUpdate
        ⟨some (8857/100000), some (8857/100000), true, some "Night (Winter)",
         some "Winter", none, some (8857/100000)⟩ 12 12 none (some (9/10))).state
        = some (8857/100000) ∧
     (currentUpdate
        ⟨some (8857/100000), some (8857/100000), true, some "Night (Winter)",
         some "Winter", none, some (8857/100000)⟩ 12 12 none (some (9/10))).tariffType
        = some "Night (Winter)" ∧
     (currentUpdate
        ⟨some (8857/100000), some (8857/100000), true, some "Night (Winter)",
         some "Winter", none, some (8857/100000)⟩ 12 12 none (some (9/10))).lastValidState
        = some (8857/100000)) :=
  ⟨rfl,
   singleCacheAcrossBands
     ⟨some (8857/100000), some (8857/100000), true, some "Night (Winter)",
      some "Winter", none, some (8857/100000)⟩ 12 12 none (some (9/10))
     (8857/100000) rfl rfl rfl⟩

theorem base_night_nightOnly (prev : Option ℚ) :
    baseUpdate .nightTariff prev (some docNightOnly) = some (8857/100000) := by
  simp only [baseUpdate, parse_docNightOnly]
  norm_num [componentsEmpty, selectComponent, getOrZero, pyRound5, roundHalfEven, VAT_RATE]

/-- The system state reached by one successful tick on the scenario document
at 10:00 local time in July. -/
def sys1 : SystemState :=
  ⟨some (14974/100000), some (8857/100000),
   ⟨some (14974/100000), some (14974/100000), true, some "Day (Summer)",
    some "Summer", some (14974/100000), some (8857/100000)⟩⟩

theorem tick_scenario_initial :
    tick initialSystem (some docScenario) 10 7 = sys1 := by
  simp only [tick, base_day_scenario, base_night_scenario, initialSystem]
  rfl

theorem tick_zero_fill :
    tick sys1 (some docNightOnly) 10 7 =
      ⟨some 0, some (8857/100000),
       ⟨some 0, some 0, true, some "Day (Summer)",
        some "Summer", some 0, some (8857/100000)⟩⟩ := by
  simp only [tick, base_day_nightOnly, base_night_nightOnly]
  rfl

/-- C2 counterexample: in the never-initialized state with both base sensors
unavailable, the state is absent yet `data_source` evaluates to `cached`
(because Python `None == None` holds), not `unavailable` as claimed. -/
theorem firstRunReportsCachedCex :
    (currentUpdate initialCur 10 7 none none).state = none ∧
    dataSourceOf (currentUpdate initialCur 10 7 none none) none none = DataSource.cached ∧
    DataSource.cached ≠ DataSource.unavailable := by
  refine ⟨by decide, by decide, by decide⟩

/-- C2 amended: for states satisfying the reachable-state invariant (the
displayed state equals the last-good scalar, and the last-good scalar is
absent until initialization), after an update the emitted `data_source` is
`fresh` exactly when both base sensors are available and `cached` otherwise;
`unavailable` is never emitted after an update, and in particular a
never-initialized sensor with unavailable base sensors reports
(absent, cached). -/
theorem dataSourceAfterUpdate (cur : CurrentSensorState) (hour month : ℕ)
    (dayB nightB : Option ℚ)
    (hinv2 : cur.initializationComplete = false → cur.lastValidState = none) :
    ((currentUpdate cur hour month dayB nightB).state
        = (currentUpdate cur hour month dayB nightB).lastValidState) ∧
    ((currentUpdate cur hour month dayB nightB).initializationComplete = false →
      (currentUpdate cur hour month dayB nightB).lastValidState = none) ∧
    dataSourceOf (currentUpdate cur hour month dayB nightB) dayB nightB =
      (if bothBasesAvailable dayB nightB then DataSource.fresh else DataSource.cached) := by
  cases hn : isNight hour month <;>
  cases hd : dayB <;>
  cases hb : nightB <;>
  cases hlv : cur.lastValidState <;>
  cases hin : cur.initializationComplete <;>
  simp_all [currentUpdate, dataSourceOf, bothBasesAvailable]

/-- C2 witness: the amended theorem applied to the never-initialized sensor
with both base sensors unavailable. -/
theorem dataSourceAfterUpdateWitness :
    (initialCur.initializationComplete = false → initialCur.lastValidState = none) ∧
    (((currentUpdate initialCur 10 7 none none).state
        = (currentUpdate initialCur 10 7 none none).lastValidState) ∧
     ((currentUpdate initialCur 10 7 none none).initializationComplete = false →
       (currentUpdate initialCur 10 7 none none).lastValidState = none) ∧
     dataSourceOf (currentUpdate initialCur 10 7 none none) none none =
       (if bothBasesAvailable none none then DataSource.fresh else DataSource.cached)) :=
  ⟨fun _ => rfl, dataSourceAfterUpdate initialCur 10 7 none none (fun _ => rfl)⟩

/-- C1 counterexample: after a successful tick establishing day price 0.14974,
a tick whose extraction returns a non-empty map with no day component
zero-fills the day price: the day-band read yields (0, fresh), not
(0.14974, cached), and the cached scalar is overwritten with 0. -/
theorem cacheFallbackZeroFillCex :
    (tick (tick initialSystem (some docScenario) 10 7) (some docNightOnly) 10 7).cur.state
        = some 0 ∧
    dataSourceOf (tick (tick initialSystem (some docScenario) 10 7) (some docNightOnly) 10 7).cur
      (tick (tick initialSystem (some docScenario) 10 7) (some docNightOnly) 10 7).dayBase
      (tick (tick initialSystem (some docScenario) 10 7) (some docNightOnly) 10 7).nightBase
        = DataSource.fresh ∧
    (tick (tick initialSystem (some docScenario) 10 7) (some docNightOnly) 10 7).cur.lastValidState
        = some 0 ∧
    ¬((tick (tick initialSystem (some docScenario) 10 7) (some docNightOnly) 10 7).cur.state
        = some (14974/100000) ∧
      dataSourceOf (tick (tick initialSystem (some docScenario) 10 7) (some docNightOnly) 10 7).cur
        (tick (tick initialSystem (some docScenario) 10 7) (some docNightOnly) 10 7).dayBase
        (tick (tick initialSystem (some docScenario) 10 7) (some docNightOnly) 10 7).nightBase
          = DataSource.cached) := by
  rw [tick_scenario_initial, tick_zero_fill]
  refine ⟨rfl, by simp [dataSourceOf, bothBasesAvailable], rfl, ?_⟩
  rintro ⟨h, -⟩
  rw [Option.some_inj] at h
  norm_num at h

/-- C1 amended: if a tick succeeds and establishes a last-good price, and a
subsequent tick's extraction returns an empty component map, then the read
yields the cached value with freshness `cached`; an extraction yielding an
empty map leaves the cached scalar untouched. -/
theorem cacheFallbackEmptyExtraction (s : SystemState) (doc : RawDocument)
    (hour month : ℕ) (v : ℚ)
    (hlv : s.cur.lastValidState = some v)
    (hinit : s.cur.initializationComplete = true)
    (hempty : componentsEmpty (parseMainTariffs doc) = true) :
    (tick s (some doc) hour month).cur.state = some v ∧
    (tick s (some doc) hour month).cur.lastValidState = some v ∧
    dataSourceOf (tick s (some doc) hour month).cur
      (tick s (some doc) hour month).dayBase
      (tick s (some doc) hour month).nightBase = DataSource.cached := by
  have hd : baseUpdate .dayTariff s.dayBase (some doc) = none := by
    simp [baseUpdate, hempty]
  have hnb : baseUpdate .nightTariff s.nightBase (some doc) = none := by
    simp [baseUpdate, hempty]
  cases hn : isNight hour month <;>
    simp [tick, hd, hnb, currentUpdate, hn, hlv, hinit, dataSourceOf, bothBasesAvailable]

/-- C1 witness: the amended theorem applied to the post-scenario state and an
empty document. -/
theorem cacheFallbackEmptyExtractionWitness :
    sys1.cur.lastValidState = some (14974/100000) ∧
    sys1.cur.initializationComplete = true ∧
    componentsEmpty (parseMainTariffs []) = true ∧
    ((tick sys1 (some []) 10 7).cur.state = some (14974/100000) ∧
     (tick sys1 (some []) 10 7).cur.lastValidState = some (14974/100000) ∧
     dataSourceOf (tick sys1 (some []) 10 7).cur
       (tick sys1 (some []) 10 7).dayBase
       (tick sys1 (some []) 10 7).nightBase = DataSource.cached) :=
  ⟨rfl, rfl, rfl,
   cacheFallbackEmptyExtraction sys1 [] 10 7 (14974/100000) rfl rfl rfl⟩

/-- C4 counterexample: a non-empty extraction lacking the day component makes
the day sensor publish the zero-filled price `round(0 * 1.2, 5) = 0`, not an
absent price. -/
theorem vatZeroFillCex :
    parseMainTariffs docNightOnly =
      { day_bgn := none, day_eur := none,
        night_bgn := some (some (7381/100000)), night_eur := some none } ∧
    baseUpdate .dayTariff none (some docNightOnly) = some 0 ∧
    baseUpdate .dayTariff none (some docNightOnly) ≠ none := by
  refine ⟨parse_docNightOnly, base_day_nightOnly none, ?_⟩
  rw [base_day_nightOnly]
  simp

/-- C4 amended: for a present raw component the published price is
`round(c * 1.2, 5)` at precision 5, a pure function of the component; but an
absent component yields an absent price only when the whole extraction map is
empty — in a non-empty map an absent key is zero-filled to price 0, and a key
holding an unparseable value keeps the previous state. -/
theorem vatCalculationCharacterization (st : SensorType) (prev : Option ℚ)
    (doc : RawDocument) (v : ℚ) :
    (selectComponent st (parseMainTariffs doc) = some (some v) →
      baseUpdate st prev (some doc) = some (pyRound5 (v * VAT_RATE))) ∧
    (componentsEmpty (parseMainTariffs doc) = true →
      baseUpdate st prev (some doc) = none) ∧
    (componentsEmpty (parseMainTariffs doc) = false →
      selectComponent st (parseMainTariffs doc) = none →
      baseUpdate st prev (some doc) = some (pyRound5 (0 * VAT_RATE))) ∧
    (selectComponent st (parseMainTariffs doc) = some none →
      baseUpdate st prev (some doc) = prev) := by
  refine ⟨?_, ?_, ?_, ?_⟩
  · intro h
    have he : componentsEmpty (parseMainTariffs doc) = false := by
      cases st <;> simp_all [selectComponent, componentsEmpty]
    simp [baseUpdate, he, h, getOrZero]
  · intro he
    simp [baseUpdate, he]
  · intro he h
    simp [baseUpdate, he, h, getOrZero]
  · intro h
    have he : componentsEmpty (parseMainTariffs doc) = false := by
      cases st <;> simp_all [selectComponent, componentsEmpty]
    simp [baseUpdate, he, h, getOrZero]

/-- C4 witness: the present-component case of the amended theorem at the
scenario document. -/
theorem vatCalculationWitness :
    selectComponent .dayTariff (parseMainTariffs docScenario) = some (some (12478/100000)) ∧
    baseUpdate .dayTariff none (some docScenario) = some (pyRound5 ((12478/100000) * VAT_RATE)) :=
  ⟨by rw [parse_docScenario]; rfl,
   (vatCalculationCharacterization .dayTariff none docScenario (12478/100000)).1
     (by rw [parse_docScenario]; rfl)⟩

/-- C3 counterexample: a night row whose only numeric value is 0.04 — below
the claimed plausibility window — is accepted as the night base and priced,
instead of leaving the night band absent. -/
theorem nightPlausibilityCex :
    parseMainTariffs docLowNight =
      { day_bgn := none, day_eur := none,
        night_bgn := some (some (4/100)), night_eur := some none } ∧
    ((4 : ℚ)/100) ≤ 5/100 ∧
    baseUpdate .nightTariff none (some docLowNight) = some (6/125) ∧
    baseUpdate .nightTariff none (some docLowNight) ≠ none := by
  refine ⟨parse_docLowNight, by norm_num, base_night_lowNight none, ?_⟩
  rw [base_night_lowNight]
  simp

/-- The canonical night-marker row with a given price-cell text. -/
def nightRow (txt : String) : Row := ⟨["", "Нощна", "", "", txt, ""]⟩

/-- C3 amended: the extractor applies no plausibility window to the night
band: whatever number `_extract_numeric_value` finds first in the matched
cell is accepted and priced, at any magnitude; only a cell with no numeric
text leaves the sensor state at its previous value. -/
theorem nightAcceptsAnyNumeric (txt : String) (prev : Option ℚ) :
    baseUpdate .nightTariff prev (some [nightRow txt]) =
      (match extractNumericValue txt with
       | some v => some (pyRound5 (v * VAT_RATE))
       | none => prev) := by
  have c2 : cellHasMarker "Дневна" (getCell (nightRow txt) 1) = false := by
    show cellHasMarker "Дневна" "Нощна" = false
    decide
  have c3 : cellHasMarker "Нощна" (getCell (nightRow txt) 1) = true := by
    show cellHasMarker "Нощна" "Нощна" = true
    decide
  have hp : parseMainTariffs [nightRow txt] =
      { day_bgn := none, day_eur := none,
        night_bgn := some (extractNumericValue txt),
        night_eur := some (extractNumericValue "") } := by
    simp only [parseMainTariffs, List.foldl, processRow, c2, c3]
    simp only [show getCell (nightRow txt) 4 = txt from rfl,
      show getCell (nightRow txt) 5 = "" from rfl]
    simp [nightRow, emptyComponents]
  simp only [baseUpdate, hp]
  cases e : extractNumericValue txt <;>
    simp [componentsEmpty, selectComponent, getOrZero, e]

/-- C6: on the scenario document (day cell "0,12478 €", night cell
"0,07381 €", comma separators normalized before parsing), the resolved
tariffs are day 0.14974 and night 0.08857 with VAT 1.2 at precision 5, and a
tick at local time 10:00 in July yields value 0.14974, band day, season
summer, freshness fresh. -/
theorem endToEndScenario :
    extractNumericValue "0,12478 €" = some (12478/100000) ∧
    extractNumericValue "0,07381 €" = some (7381/100000) ∧
    baseUpdate .dayTariff none (some docScenario) = some (14974/100000) ∧
    baseUpdate .nightTariff none (some docScenario) = some (8857/100000) ∧
    isSummer 7 = true ∧
    isNight 10 7 = false ∧
    (tick initialSystem (some docScenario) 10 7).cur.state = some (14974/100000) ∧
    (tick initialSystem (some docScenario) 10 7).cur.tariffType = some "Day (Summer)" ∧
    (tick initialSystem (some docScenario) 10 7).cur.season = some "Summer" ∧
    dataSourceOf (tick initialSystem (some docScenario) 10 7).cur
      (tick initialSystem (some docScenario) 10 7).dayBase
      (tick initialSystem (some docScenario) 10 7).nightBase = DataSource.fresh := by
  refine ⟨extract_day_cell, extract_night_cell, base_day_scenario none,
    base_night_scenario none, by decide, by decide, ?_, ?_, ?_, ?_⟩ <;>
  rw [tick_scenario_initial] <;>
  simp [sys1, dataSourceOf, bothBasesAvailable]

end ElectroholdTariffs
